import Mathlib

/-!
Shallow embedding of the voting backend in src/server/app.py and
src/server/models.py: the vote-cast operation, the voting gate, the
session resolver, nominee resolution, access-code generation, admin
authorization and the tally read endpoint, together with theorems about
the behaviour the specification describes.
-/

namespace VotingApp

/-! ### Python string primitives

The handlers use the python operations strip, lower, upper and list
indexing on short ASCII strings.  They are embedded here on the character
list of the string, so that every definition evaluates by kernel
reduction. -/

/-- The python lower() on the ASCII range. -/
def lower (s : String) : String := String.mk (s.data.map Char.toLower)

/-- The python upper() on the ASCII range. -/
def upper (s : String) : String := String.mk (s.data.map Char.toUpper)

/-- The whitespace stripped by the python strip(). -/
def isPyWS (c : Char) : Bool := c == ' ' || c == '\t' || c == '\n' || c == '\r'

/-- The python strip(): remove leading and trailing whitespace. -/
def strip (s : String) : String :=
  String.mk (((s.data.dropWhile isPyWS).reverse.dropWhile isPyWS).reverse)

/-- The python startswith(). -/
def strStartsWith (s p : String) : Bool := s.data.take p.data.length == p.data

/-- The python slice s[n:]. -/
def dropChars (s : String) (n : Nat) : String := String.mk (s.data.drop n)

/-- A row of the votes table (models.py, class Vote): user_id, category_id,
nominee_id.  The uniqueness constraint on (user_id, category_id) is stated
as the predicate uniquePerUserCategory below. -/
structure Vote where
  user_id : Nat
  category_id : Int
  nominee_id : Int
deriving Repr, DecidableEq

/-- One entry of the authoritative category list loaded by
load_categories_data: a number and an ordered nominee list. -/
structure Category where
  number : Int
  nominees : List String
deriving Repr, DecidableEq

abbrev VoteStore := List Vote

/-- An HTTP response as produced by the flask handlers: status code,
success flag and message of the JSON body. -/
structure Response where
  status : Nat
  success : Bool
  message : String
deriving Repr, DecidableEq

/-- Embedding of get_voting_active_from_db (app.py lines 398-430).  The
argument is the outcome of reading the stored voting_active value:
an exception (error), a missing row (ok none, which the code initializes
to true), or the stored string.  The code returns
value.lower() == "true", and defaults to active on any error. -/
def getVotingActive (flagRead : Except Unit (Option String)) : Bool :=
  match flagRead with
  | Except.error _ => true
  | Except.ok none => true
  | Except.ok (some v) => lower v == "true"

/-- Embedding of the python list.index operation used by cast_vote:
the index of the first occurrence of s in l, if any. -/
def listIndex (l : List String) (s : String) : Option Nat :=
  match l with
  | [] => none
  | a :: rest => if a = s then some 0 else (listIndex rest s).map (fun i => i + 1)

/-- Embedding of the nominee reconciliation block of cast_vote
(app.py lines 1570-1596), executed when the category was found.
nominee_name is the already stripped name from the request body; the
block recomputes a normalized (stripped, lowercased) form of it and of
the nominee list, lets a name match override the client-supplied id,
recovers an out-of-range id via the name, and otherwise keeps or drops
the client id.  A python None is an Option.none; the python truthiness
test if nominee_id: is false exactly for None and 0. -/
def resolveNominee (nominees_list : List String) (nominee_id : Option Int)
    (nominee_name : String) : Option Int :=
  let normalized_nominees := nominees_list.map (fun n => lower (strip n))
  let normalized_name := if nominee_name ≠ "" then lower (strip nominee_name) else ""
  let nid1 : Option Int :=
    if normalized_name ≠ "" then
      match listIndex normalized_nominees normalized_name with
      | some name_idx => some ((name_idx : Int) + 1)
      | none => nominee_id
    else nominee_id
  match nid1 with
  | none => none
  | some nid =>
    if nid = 0 then some 0
    else
      let idx_from_id : Int := nid - 1
      if idx_from_id < 0 ∨ (nominees_list.length : Int) ≤ idx_from_id then
        if normalized_name ≠ "" ∧ (listIndex normalized_nominees normalized_name).isSome then
          (listIndex normalized_nominees normalized_name).map (fun i => (i : Int) + 1)
        else none
      else
        if normalized_name ≠ "" ∧ normalized_nominees.get? idx_from_id.toNat ≠ some normalized_name then
          if (listIndex normalized_nominees normalized_name).isSome then
            (listIndex normalized_nominees normalized_name).map (fun i => (i : Int) + 1)
          else some nid
        else some nid

/-- Category lookup of cast_vote (app.py lines 1563-1569): the first
category whose number equals the submitted category_id; the categories
argument is none when load_categories_data failed. -/
def findCategory (categories : Option (List Category)) (cid : Int) : Option Category :=
  match categories with
  | some cats => cats.find? (fun c => c.number == cid)
  | none => none

/-- The nominee id cast_vote ends up with after the reconciliation block:
when no category matched, the block is skipped and the client-supplied id
is kept unchanged. -/
def castResolvedNominee (categories : Option (List Category)) (cid : Int)
    (nominee_id : Option Int) (nominee_name : String) : Option Int :=
  match findCategory categories cid with
  | some c => resolveNominee c.nominees nominee_id nominee_name
  | none => nominee_id

def votingClosedResponse : Response := ⟨403, false, "Voting session is closed."⟩

def notAuthenticatedResponse : Response := ⟨401, false, "Not authenticated"⟩

def invalidCategoryResponse : Response := ⟨400, false, "Invalid category"⟩

def invalidNomineeResponse : Response := ⟨400, false, "Invalid nominee"⟩

def invalidIdentifiersResponse : Response := ⟨400, false, "Invalid identifiers"⟩

def alreadyVotedResponse : Response := ⟨409, false, "You have already voted in this category"⟩

def voteRecordedResponse : Response := ⟨201, true, "Vote recorded"⟩

/-- The existing-vote check of cast_vote (select of a vote row with this
user_id and category_id). -/
def hasVoted (votes : VoteStore) (u : Nat) (c : Int) : Bool :=
  votes.any (fun v => v.user_id == u && v.category_id == c)

/-- Embedding of the cast_vote handler (app.py lines 1535-1669).
flagRead is the fresh read of the stored voting_active value performed
first by the handler; auth is the outcome of authenticate_request_helper;
category_id and nominee_id are the parsed request fields (none for a
missing or unparsable value); nominee_raw is the raw nominee name, which
the handler strips; categories is the loaded category list.  The python
truthiness test if not category_id: fails the request for None and 0.
Both storage branches check for an existing (user, category) row inside
a transaction and insert only when none exists. -/
def castVote (flagRead : Except Unit (Option String)) (auth : Option Nat)
    (category_id nominee_id : Option Int) (nominee_raw : String)
    (categories : Option (List Category)) (votes : VoteStore) :
    Response × VoteStore :=
  if getVotingActive flagRead = false then (votingClosedResponse, votes)
  else
    match auth with
    | none => (notAuthenticatedResponse, votes)
    | some user_id =>
      match category_id with
      | none => (invalidCategoryResponse, votes)
      | some cid =>
        if cid = 0 then (invalidCategoryResponse, votes)
        else
          match castResolvedNominee categories cid nominee_id (strip nominee_raw) with
          | none => (invalidNomineeResponse, votes)
          | some nid =>
            if nid ≤ 0 then (invalidNomineeResponse, votes)
            else if cid ≤ 0 then (invalidIdentifiersResponse, votes)
            else if hasVoted votes user_id cid then (alreadyVotedResponse, votes)
            else (voteRecordedResponse, votes ++ [⟨user_id, cid, nid⟩])

/-- The uniqueness constraint unique_user_category of the votes table:
no two rows share the same (user_id, category_id) pair. -/
def uniquePerUserCategory (votes : VoteStore) : Prop :=
  List.Pairwise (fun a b => ¬(a.user_id = b.user_id ∧ a.category_id = b.category_id)) votes

/-! ## Sessions and the request authentication helper -/

/-- A row of the sessions table (models.py, class Session), with times as
integer seconds. -/
structure SessionRec where
  id : String
  user_id : Nat
  last_active : Int
  expires_at : Int
deriving Repr, DecidableEq

abbrev SessionStore := List SessionRec

/-- What get_session_from_db hands back to its caller: the user id of the
row found and the last_active value it reports. -/
structure SessionView where
  user_id : Nat
  last_active : Int
deriving Repr, DecidableEq

/-- Embedding of get_session_from_db (app.py lines 506-564).  Looks up the
row; deletes it when the absolute expiry has passed; otherwise touches
last_active to now.  The two storage branches differ in the last_active
value they report to the caller: the PostgreSQL branch assigns
last_active = utcnow before building the return value, so it reports the
refreshed time, while the SQLite branch reads the row first and reports
the value from before the touch. -/
def get_session_from_db (use_postgresql : Bool) (now : Int)
    (store : SessionStore) (session_id : String) :
    Option SessionView × SessionStore :=
  match store.find? (fun s => s.id == session_id) with
  | none => (none, store)
  | some s =>
    if s.expires_at < now then
      (none, store.filter (fun t => t.id ≠ session_id))
    else
      let store1 := store.map (fun t => if t.id == session_id then { t with last_active := now } else t)
      if use_postgresql then (some ⟨s.user_id, now⟩, store1)
      else (some ⟨s.user_id, s.last_active⟩, store1)

/-- Embedding of delete_session_from_db (app.py lines 566-579). -/
def delete_session_from_db (store : SessionStore) (session_id : String) : SessionStore :=
  store.filter (fun t => t.id ≠ session_id)

/-- Embedding of save_session_to_db (app.py lines 461-504): update the row
with this id when one exists, insert it otherwise. -/
def save_session_to_db (store : SessionStore) (session_id : String)
    (user_id : Nat) (now expires_at : Int) : SessionStore :=
  if store.any (fun s => s.id == session_id) then
    store.map (fun s => if s.id == session_id then ⟨session_id, user_id, now, expires_at⟩ else s)
  else store ++ [⟨session_id, user_id, now, expires_at⟩]

/-- The flask cookie session as far as authenticate_request_helper reads
it: the user_id key and the stored session id, each possibly absent. -/
structure FlaskSession where
  user_id : Option Nat
  sid : Option String
deriving Repr, DecidableEq

/-- A row of the users table, reduced to the fields the authentication
and code-generation helpers read. -/
structure UserRec where
  id : Nat
  access_code : String
deriving Repr, DecidableEq

/-- The credential extraction of authenticate_request_helper (app.py
lines 1950-1955): the stripped X-Access-Code header, or, when that is
empty, the part of the Authorization header after the case-insensitive
Bearer marker, stripped. -/
def headerCode (xAccessCode authHeader : String) : String :=
  let code := strip xAccessCode
  if code ≠ "" then code
  else if strStartsWith (lower authHeader) "bearer " then strip (dropChars authHeader 7)
  else ""

/-- Embedding of get_user_by_access_code_helper (app.py lines 1760-1787):
lookup by the stripped, uppercased code; an empty code matches nothing. -/
def get_user_by_access_code (users : List UserRec) (code : String) : Option UserRec :=
  if code = "" then none
  else users.find? (fun u => u.access_code == upper (strip code))

/-- Embedding of authenticate_request_helper (app.py lines 1890-1980).
Cookie path first: when the flask session has a user_id and a stored
session id, the DB row is fetched (touching last_active); a reported
last_active more than 1800 seconds old deletes the session and returns
unauthenticated; otherwise the flask user id is returned.  A flask
session without a stored id is accepted as legacy.  When the cookie path
yields nothing (no flask user, or no DB row), the header credential is
tried: a user found by access code gets a fresh 31-day session persisted
under newSid and their id returned. -/
def authenticate_request_helper (use_postgresql : Bool) (now : Int)
    (flask : FlaskSession) (store : SessionStore)
    (xAccessCode authHeader : String) (users : List UserRec) (newSid : String) :
    Option Nat × SessionStore :=
  let headerPhase : SessionStore → Option Nat × SessionStore := fun st =>
    let code := headerCode xAccessCode authHeader
    if code ≠ "" then
      match get_user_by_access_code users code with
      | some u => (some u.id, save_session_to_db st newSid u.id now (now + 31 * 86400))
      | none => (none, st)
    else (none, st)
  match flask.user_id with
  | some fuid =>
    match flask.sid with
    | some sid =>
      match get_session_from_db use_postgresql now store sid with
      | (some view, st) =>
        if now - view.last_active > 1800 then (none, delete_session_from_db st sid)
        else (some fuid, st)
      | (none, st) => headerPhase st
    | none => (some fuid, store)
  | none => headerPhase store

/-! ## Admin and analyst authorization -/

def ADMIN_CODE : String := "B1E5Z0"

def ANALYST_CODE : String := "HANS13"

/-- The flask session keys require_admin and require_analyst read:
admin_authenticated and admin_role, each possibly absent. -/
structure AdminSession where
  admin_authenticated : Option Bool
  admin_role : Option String
deriving Repr, DecidableEq

/-- Embedding of require_admin (app.py lines 1982-1998): an authenticated
session whose role (defaulting to admin when the key is absent) is admin
passes; otherwise the stripped, uppercased X-Admin-Code header must equal
the admin code. -/
def require_admin (s : AdminSession) (xAdminCode : String) : Bool :=
  if s.admin_authenticated == some true && s.admin_role.getD "admin" == "admin" then true
  else upper (strip xAdminCode) == ADMIN_CODE

/-- Embedding of require_analyst (app.py lines 2000-2016): the analog with
role analyst and the analyst code. -/
def require_analyst (s : AdminSession) (xAdminCode : String) : Bool :=
  if s.admin_authenticated == some true && s.admin_role.getD "analyst" == "analyst" then true
  else upper (strip xAdminCode) == ANALYST_CODE

def adminAccessRequiredResponse : Response := ⟨403, false, "Admin access required"⟩

/-- Embedding of the reset_votes handler (app.py lines 2160-2190): gated
on require_admin alone; on success every vote row is deleted. -/
def reset_votes (s : AdminSession) (xAdminCode : String) (votes : VoteStore) :
    Response × VoteStore :=
  if require_admin s xAdminCode = false then (adminAccessRequiredResponse, votes)
  else (⟨200, true, ""⟩, [])

/-- Embedding of the admin_delete_user handler (app.py lines 2217-2267):
gated on require_admin alone; on success the user and all of their votes
and sessions are deleted. -/
def admin_delete_user (s : AdminSession) (xAdminCode : String) (uid : Nat)
    (users : List UserRec) (votes : VoteStore) (sessions : SessionStore) :
    Response × List UserRec × VoteStore × SessionStore :=
  if require_admin s xAdminCode = false then
    (adminAccessRequiredResponse, users, votes, sessions)
  else
    (⟨200, true, "User deleted successfully"⟩,
      users.filter (fun u => u.id ≠ uid),
      votes.filter (fun v => v.user_id ≠ uid),
      sessions.filter (fun t => t.user_id ≠ uid))

/-- The authorization check of the admin_get_users handler (app.py line
2195), the read route that accepts either role. -/
def admin_get_users_authorized (s : AdminSession) (xAdminCode : String) : Bool :=
  require_admin s xAdminCode || require_analyst s xAdminCode

/-! ## Access-code generation -/

def letterChar (i : Fin 26) : Char := Char.ofNat (65 + i.val)

def digitChar (i : Fin 10) : Char := Char.ofNat (48 + i.val)

/-- One candidate code of generate_access_code_helper: four letters drawn
from the letter stream ls and two digits from the digit stream ds, the
k-th loop iteration consuming entries 4k..4k+3 and 2k..2k+1. -/
def accessCodeCandidate (ls : Nat → Fin 26) (ds : Nat → Fin 10) (k : Nat) : String :=
  String.mk [letterChar (ls (4 * k)), letterChar (ls (4 * k + 1)),
    letterChar (ls (4 * k + 2)), letterChar (ls (4 * k + 3)),
    digitChar (ds (2 * k)), digitChar (ds (2 * k + 1))]

/-- The existing-code check of generate_access_code_helper: some user row
already carries this access code. -/
def storeHasCode (users : List UserRec) (code : String) : Bool :=
  users.any (fun u => u.access_code == code)

/-- The loop of generate_access_code_helper (app.py lines 1789-1814) with
explicit random streams and fuel: draw a candidate, return it when no user
has it yet, retry otherwise.  Also reports the next unused stream
position. -/
def generateAccessCodeAux (ls : Nat → Fin 26) (ds : Nat → Fin 10)
    (users : List UserRec) (k fuel : Nat) : Option (String × Nat) :=
  match fuel with
  | 0 => none
  | Nat.succ fuel1 =>
    let code := accessCodeCandidate ls ds k
    if storeHasCode users code then generateAccessCodeAux ls ds users (k + 1) fuel1
    else some (code, k + 1)

/-- Embedding of generate_access_code_helper: the code the loop returns. -/
def generate_access_code_helper (ls : Nat → Fin 26) (ds : Nat → Fin 10)
    (users : List UserRec) (k fuel : Nat) : Option String :=
  (generateAccessCodeAux ls ds users k fuel).map Prod.fst

def isUpperLetter (c : Char) : Bool := 65 ≤ c.toNat && c.toNat ≤ 90

def isDigitChar (c : Char) : Bool := 48 ≤ c.toNat && c.toNat ≤ 57

/-- The access-code shape of the spec: exactly four uppercase letters
followed by two digits. -/
def matchesCodeShape (code : String) : Bool :=
  code.data.length == 6 && (code.data.take 4).all isUpperLetter &&
    (code.data.drop 4).all isDigitChar

/-- Sequential code generation as performed by successive signups: each
generated code is persisted as a user row before the next generation
runs against the grown store. -/
def generateCodesSeq (ls : Nat → Fin 26) (ds : Nat → Fin 10)
    (users : List UserRec) (k fuel : Nat) : Nat → Option (List String)
  | 0 => some []
  | Nat.succ n =>
    match generateAccessCodeAux ls ds users k fuel with
    | none => none
    | some (c, k1) =>
      match generateCodesSeq ls ds (users ++ [⟨0, c⟩]) k1 fuel n with
      | none => none
      | some rest => some (c :: rest)

/-! ## Tally read endpoint -/

/-- One element of the results array of the category_results response. -/
structure ResultRow where
  nominee_id : Int
  votes : Nat
deriving Repr, DecidableEq

/-- The category_results response body together with its HTTP status. -/
structure ResultsBody where
  status : Nat
  category_id : Int
  results : List ResultRow
deriving Repr, DecidableEq

/-- The grouped count of the category_results query: one row per distinct
nominee_id among the votes of the category, with its count. -/
def tallyForCategory (votes : VoteStore) (cid : Int) : List ResultRow :=
  let inCat := votes.filter (fun v => v.category_id == cid)
  ((inCat.map (fun v => v.nominee_id)).dedup).map
    (fun n => ⟨n, inCat.countP (fun v => v.nominee_id == n)⟩)

/-- Embedding of the category_results handler (app.py lines 1680-1713):
the read of the vote store may fail; on failure the handler answers with
an empty results array and, like the success path, the default 200
status. -/
def category_results (readVotes : Except Unit VoteStore) (cid : Int) : ResultsBody :=
  match readVotes with
  | Except.error _ => ⟨200, cid, []⟩
  | Except.ok votes => ⟨200, cid, tallyForCategory votes cid⟩

/-! ## Helper lemmas -/

theorem listIndex_lt_length :
    ∀ {l : List String} {s : String} {i : Nat}, listIndex l s = some i → i < l.length := by
  intro l
  induction l with
  | nil => intro s i h; simp [listIndex] at h
  | cons a rest ih =>
    intro s i h
    rw [listIndex] at h
    split at h
    · cases h; simp
    · cases hrec : listIndex rest s with
      | none => rw [hrec] at h; simp at h
      | some j =>
        rw [hrec] at h
        simp at h
        have := ih hrec
        simp
        omega

theorem listIndex_get :
    ∀ {l : List String} {s : String} {i : Nat}, listIndex l s = some i → l.get? i = some s := by
  intro l
  induction l with
  | nil => intro s i h; simp [listIndex] at h
  | cons a rest ih =>
    intro s i h
    rw [listIndex] at h
    split at h
    · next ha => cases h; simpa using ha
    · cases hrec : listIndex rest s with
      | none => rw [hrec] at h; simp at h
      | some j =>
        rw [hrec] at h
        simp at h
        subst h
        simpa using ih hrec

/-- When the normalized supplied name is nonempty and occurs first at
index i of the normalized nominee list, the reconciliation block resolves
to 1 + i whatever id the client supplied. -/
theorem resolveNominee_name_match (nominees : List String) (ni : Option Int)
    (nn : String) (i : Nat)
    (hname : nn ≠ "")
    (hne : lower (strip nn) ≠ "")
    (hidx : listIndex (nominees.map (fun s => lower (strip s))) (lower (strip nn)) = some i) :
    resolveNominee nominees ni nn = some ((i : Int) + 1) := by
  have hlen : i < nominees.length := by
    have := listIndex_lt_length hidx
    simpa using this
  have hget : (nominees.map (fun s => lower (strip s))).get? i = some (lower (strip nn)) :=
    listIndex_get hidx
  unfold resolveNominee
  simp only [if_pos hname, if_pos hne, hidx]
  have h0 : ¬((i : Int) + 1 = 0) := by omega
  rw [if_neg h0]
  have hb : ¬((i : Int) + 1 - 1 < 0 ∨ (nominees.length : Int) ≤ (i : Int) + 1 - 1) := by
    push_neg
    constructor <;> omega
  rw [if_neg hb]
  have htn : ((i : Int) + 1 - 1).toNat = i := by omega
  rw [htn, hget]
  simp

/-! ## Claim theorems -/

/-- Claim C2: whenever the fresh read of the persisted voting_active flag
yields false, cast_vote answers 403 with the voting-closed message and
leaves the vote store unchanged, for every authentication outcome and
every submitted category, nominee id, nominee name and category list:
the gate value read from storage alone decides, before authentication
and before nominee resolution enter the computation. -/
theorem cast_vote_closed_gate
    (flagRead : Except Unit (Option String)) (auth : Option Nat)
    (ci ni : Option Int) (nm : String) (cats : Option (List Category))
    (votes : VoteStore)
    (h : getVotingActive flagRead = false) :
    castVote flagRead auth ci ni nm cats votes = (votingClosedResponse, votes) := by
  unfold castVote
  rw [if_pos h]

/-- Witness for cast_vote_closed_gate: a stored flag value of false, an
authenticated request with a valid category and nominee, and a concrete
store; the cast is rejected as closed and the store is untouched. -/
theorem cast_vote_closed_gate_witness :
    getVotingActive (Except.ok (some "false")) = false ∧
    castVote (Except.ok (some "false")) (some 1) (some 1) (some 1) "a"
      (some [⟨1, ["a", "b"]⟩]) [] = (votingClosedResponse, []) := by
  exact ⟨by decide, cast_vote_closed_gate (Except.ok (some "false")) (some 1) (some 1)
    (some 1) "a" (some [⟨1, ["a", "b"]⟩]) [] (by decide)⟩

/-- Claim C10: a storage error while reading the voting_active flag makes
the gate read true (fail open), so no cast_vote request is ever answered
with the voting-closed response because of a storage read failure. -/
theorem voting_gate_fails_open (e : Unit) (auth : Option Nat)
    (ci ni : Option Int) (nm : String) (cats : Option (List Category))
    (votes : VoteStore) :
    getVotingActive (Except.error e) = true ∧
    (castVote (Except.error e) auth ci ni nm cats votes).1 ≠ votingClosedResponse := by
  refine ⟨rfl, ?_⟩
  unfold castVote
  rw [if_neg (by simp [getVotingActive])]
  repeat' split
  all_goals simp [votingClosedResponse, notAuthenticatedResponse, invalidCategoryResponse,
    invalidNomineeResponse, invalidIdentifiersResponse, alreadyVotedResponse, voteRecordedResponse]

/-- Claim C8: the category results read never produces an error status:
for every outcome of the vote-store read and every category id the
response carries status 200, echoes the category id, and a failed read
degrades to an empty results array. -/
theorem category_results_never_errors (readVotes : Except Unit VoteStore) (cid : Int) :
    (category_results readVotes cid).status = 200 ∧
    (category_results readVotes cid).category_id = cid ∧
    (∀ e, readVotes = Except.error e → (category_results readVotes cid).results = []) := by
  cases readVotes <;> simp [category_results]

/-- Witness for category_results_never_errors: a failed store read for
category 3 yields status 200 with an empty results array. -/
theorem category_results_never_errors_witness :
    (category_results (Except.error ()) 3).status = 200 ∧
    (category_results (Except.error ()) 3).results = [] := by
  have h := category_results_never_errors (Except.error ()) 3
  exact ⟨h.1, h.2.2 () rfl⟩

/-- cast_vote either leaves the vote store unchanged, or appends one row
for the authenticated user and submitted category after having checked
that no row for that pair exists. -/
theorem castVote_snd_cases (f : Except Unit (Option String)) (a : Option Nat)
    (ci ni : Option Int) (nm : String) (cats : Option (List Category))
    (votes : VoteStore) :
    (castVote f a ci ni nm cats votes).2 = votes ∨
      ∃ u c n, a = some u ∧ ci = some c ∧ hasVoted votes u c = false ∧
        (castVote f a ci ni nm cats votes).2 = votes ++ [⟨u, c, n⟩] := by
  unfold castVote
  repeat' split
  all_goals first
  | exact Or.inl rfl
  | (refine Or.inr ⟨_, _, _, rfl, rfl, ?_, rfl⟩; simp_all)

/-- Claim C1: the cast operation preserves the uniqueness of
(user_id, category_id) pairs in the vote store, and a cast attempt by an
authenticated user for a category in which a vote of theirs already
exists — with an open gate and a valid category and nominee — answers
409 with the already-voted conflict message and leaves the store
unchanged. -/
theorem cast_vote_unique_per_user_category
    (f : Except Unit (Option String)) (a : Option Nat) (ci ni : Option Int)
    (nm : String) (cats : Option (List Category)) (votes : VoteStore)
    (huniq : uniquePerUserCategory votes) :
    uniquePerUserCategory (castVote f a ci ni nm cats votes).2 ∧
    ∀ u c n, getVotingActive f = true → a = some u → ci = some c →
      castResolvedNominee cats c ni (strip nm) = some n → 0 < n → 0 < c →
      hasVoted votes u c = true →
      castVote f a ci ni nm cats votes = (alreadyVotedResponse, votes) := by
  constructor
  · rcases castVote_snd_cases f a ci ni nm cats votes with h | ⟨u, c, n, _, _, hnew, h⟩
    · rw [h]; exact huniq
    · rw [h]
      unfold uniquePerUserCategory at huniq ⊢
      rw [List.pairwise_append]
      refine ⟨huniq, by simp, ?_⟩
      intro x hx y hy
      simp only [List.mem_singleton] at hy
      subst hy
      intro hxy
      simp only [hasVoted, List.any_eq_false] at hnew
      have hfalse := hnew x hx
      simp [hxy.1, hxy.2] at hfalse
  · intro u c n hgate ha hc hres hn hcpos hvoted
    subst ha; subst hc
    unfold castVote
    rw [if_neg (by simp [hgate])]
    have h1 : ¬(c = 0) := by omega
    have h2 : ¬(n ≤ 0) := by omega
    have h3 : ¬(c ≤ 0) := by omega
    simp [hres, h1, h2, h3, hvoted]

/-- Witness for cast_vote_unique_per_user_category: user 1 already voted
in category 1; the repeated cast with a different nominee answers the
conflict and the store keeps its single row. -/
theorem cast_vote_unique_per_user_category_witness :
    uniquePerUserCategory ((castVote (Except.ok (some "true")) (some 1) (some 1) (some 1) ""
      (some [⟨1, ["a", "b"]⟩]) [⟨1, 1, 2⟩]).2) ∧
    castVote (Except.ok (some "true")) (some 1) (some 1) (some 1) ""
      (some [⟨1, ["a", "b"]⟩]) [⟨1, 1, 2⟩] = (alreadyVotedResponse, [⟨1, 1, 2⟩]) := by
  have h := cast_vote_unique_per_user_category (Except.ok (some "true")) (some 1) (some 1)
    (some 1) "" (some [⟨1, ["a", "b"]⟩]) [⟨1, 1, 2⟩] (by simp [uniquePerUserCategory])
  exact ⟨h.1, h.2 1 1 1 (by decide) rfl rfl (by decide) (by decide) (by decide) (by decide)⟩

/-- Claim C3: when the supplied nominee name, stripped and lowercased,
occurs (first) at index i of the equally normalized nominee list of the
category found for the request, the recorded vote carries
nominee_id = 1 + i, whatever nominee id the client supplied: the name
match overrides the client id. -/
theorem cast_vote_name_match_wins
    (f : Except Unit (Option String)) (u : Nat) (c : Int) (ni : Option Int)
    (nm : String) (cats : List Category) (cat : Category) (votes : VoteStore) (i : Nat)
    (hgate : getVotingActive f = true)
    (hfind : cats.find? (fun x => x.number == c) = some cat)
    (hname : strip nm ≠ "")
    (hne : lower (strip (strip nm)) ≠ "")
    (hidx : listIndex (cat.nominees.map (fun s => lower (strip s)))
      (lower (strip (strip nm))) = some i)
    (hc : 0 < c)
    (hnew : hasVoted votes u c = false) :
    castVote f (some u) (some c) ni nm (some cats) votes =
      (voteRecordedResponse, votes ++ [⟨u, c, (i : Int) + 1⟩]) := by
  have hfc : findCategory (some cats) c = some cat := hfind
  have hres : castResolvedNominee (some cats) c ni (strip nm) = some ((i : Int) + 1) := by
    unfold castResolvedNominee
    rw [hfc]
    exact resolveNominee_name_match cat.nominees ni (strip nm) i hname hne hidx
  unfold castVote
  rw [if_neg (by simp [hgate])]
  have h1 : ¬(c = 0) := by omega
  have h2 : ¬((i : Int) + 1 ≤ 0) := by omega
  have h3 : ¬(c ≤ 0) := by omega
  simp [hres, h1, h2, h3, hnew]

/-- Witness for cast_vote_name_match_wins: the spec scenario — the list
for category 3 holds Jane Doe at index 1, the client still sends
nominee_id = 3 with the name; the recorded id is 2 = 1 + 1. -/
theorem cast_vote_name_match_wins_witness :
    castVote (Except.ok (some "true")) (some 5) (some 3) (some 3) " Jane DOE "
      (some [⟨3, ["John", "Jane Doe", "X"]⟩]) [] =
      (voteRecordedResponse, [⟨5, 3, (1 : Int) + 1⟩]) := by
  exact cast_vote_name_match_wins (Except.ok (some "true")) 5 3 (some 3) " Jane DOE "
    [⟨3, ["John", "Jane Doe", "X"]⟩] ⟨3, ["John", "Jane Doe", "X"]⟩ [] 1
    (by decide) (by decide) (by decide) (by decide) (by decide) (by decide) (by decide)

/-- Counterexample to claim C4: no category of the list has number 999,
yet the cast with the unknown category and a positive client nominee id
succeeds with 201 and records a vote row for category 999. -/
theorem cast_vote_unknown_category_counterexample :
    (([⟨1, ["a", "b"]⟩] : List Category).all (fun cat => cat.number != 999)) = true ∧
    findCategory (some [⟨1, ["a", "b"]⟩]) 999 = none ∧
    castVote (Except.ok (some "true")) (some 1) (some 999) (some 1) ""
      (some [⟨1, ["a", "b"]⟩]) [] = (voteRecordedResponse, [⟨1, 999, 1⟩]) := by
  exact ⟨by decide, by decide, by decide⟩

/-- Claim C4 as amended: when no category of the authoritative list has
number equal to the submitted category_id, the cast fails with the
invalid-nominee 400 only when the submitted nominee_id is missing or
non-positive; a positive nominee_id passes unvalidated, and the vote is
recorded against the unknown category. -/
theorem cast_vote_unknown_category_amended
    (f : Except Unit (Option String)) (u : Nat) (c : Int) (ni : Option Int)
    (nm : String) (cats : Option (List Category)) (votes : VoteStore)
    (hgate : getVotingActive f = true)
    (hsel : findCategory cats c = none)
    (hc : 0 < c) :
    ((ni = none ∨ ∃ n, ni = some n ∧ n ≤ 0) →
      castVote f (some u) (some c) ni nm cats votes = (invalidNomineeResponse, votes)) ∧
    (∀ n, ni = some n → 0 < n → hasVoted votes u c = false →
      castVote f (some u) (some c) ni nm cats votes =
        (voteRecordedResponse, votes ++ [⟨u, c, n⟩])) := by
  have hres : castResolvedNominee cats c ni (strip nm) = ni := by
    unfold castResolvedNominee
    rw [hsel]
  have h1 : ¬(c = 0) := by omega
  constructor
  · intro hni
    unfold castVote
    rw [if_neg (by simp [hgate])]
    rcases hni with hni | ⟨n, hni, hn⟩
    · subst hni
      simp [hres, h1]
    · subst hni
      simp [hres, h1, hn]
  · intro n hni hn hnew
    subst hni
    unfold castVote
    rw [if_neg (by simp [hgate])]
    have h2 : ¬(n ≤ 0) := by omega
    have h3 : ¬(c ≤ 0) := by omega
    simp [hres, h1, h2, h3, hnew]

/-- Witness for cast_vote_unknown_category_amended: category 999 is
absent, nominee_id 1 is positive, and the vote is recorded. -/
theorem cast_vote_unknown_category_amended_witness :
    castVote (Except.ok (some "true")) (some 1) (some 999) (some 1) "x"
      (some [⟨1, ["a", "b"]⟩]) [] = (voteRecordedResponse, [⟨1, 999, 1⟩]) := by
  exact (cast_vote_unknown_category_amended (Except.ok (some "true")) 1 999 (some 1) "x"
    (some [⟨1, ["a", "b"]⟩]) [] (by decide) (by decide) (by decide)).2 1 rfl
    (by decide) (by decide)

/-- Claim C5, evaluated at the failing input: a session whose stored
last_active lies 10000 seconds (far more than the 30-minute window) in
the past and whose absolute expiry has not passed.  On the PostgreSQL
branch get_session_from_db refreshes last_active before reporting it, so
the resolver sees an inactivity of zero and authenticates the request,
resurrecting the idle session instead of deleting it; the SQLite branch
reports the old last_active and correctly rejects and deletes the same
session. -/
theorem idle_session_resurrected_on_postgresql :
    (authenticate_request_helper true 10000 ⟨some 7, some "t"⟩
      [⟨"t", 7, 0, 1000000⟩] "" "" [] "new").1 = some 7 ∧
    (authenticate_request_helper true 10000 ⟨some 7, some "t"⟩
      [⟨"t", 7, 0, 1000000⟩] "" "" [] "new").2 = [⟨"t", 7, 10000, 1000000⟩] ∧
    (authenticate_request_helper false 10000 ⟨some 7, some "t"⟩
      [⟨"t", 7, 0, 1000000⟩] "" "" [] "new").1 = none ∧
    (authenticate_request_helper false 10000 ⟨some 7, some "t"⟩
      [⟨"t", 7, 0, 1000000⟩] "" "" [] "new").2 = [] := by
  exact ⟨by decide, by decide, by decide, by decide⟩

/-- Claim C6: a request with no cookie session whose header credential,
stripped and uppercased, is the access code of a user of the store is
authenticated as that user, and a fresh session row owned by that user
(31-day expiry, last_active now) is persisted. -/
theorem header_auth_creates_session
    (use_postgresql : Bool) (now : Int) (store : SessionStore)
    (x a : String) (users : List UserRec) (newSid : String) (u : UserRec)
    (hcode : headerCode x a ≠ "")
    (huser : users.find? (fun w => w.access_code == upper (strip (headerCode x a))) = some u)
    (hfresh : store.any (fun s => s.id == newSid) = false) :
    authenticate_request_helper use_postgresql now ⟨none, none⟩ store x a users newSid =
      (some u.id, store ++ [⟨newSid, u.id, now, now + 31 * 86400⟩]) := by
  have hlook : get_user_by_access_code users (headerCode x a) = some u := by
    unfold get_user_by_access_code
    rw [if_neg hcode]
    exact huser
  unfold authenticate_request_helper
  simp only [hlook, if_pos hcode]
  unfold save_session_to_db
  rw [if_neg (by simp [hfresh])]

/-- Witness for header_auth_creates_session: the X-Access-Code header
holds a padded lowercase form of the stored code AB12CD; the request is
authenticated as user 9 and the new session row appears in the store. -/
theorem header_auth_creates_session_witness :
    authenticate_request_helper false 100 ⟨none, none⟩ [] " ab12cd " "" [⟨9, "AB12CD"⟩] "s1" =
      (some 9, [⟨"s1", 9, 100, 100 + 31 * 86400⟩]) := by
  exact header_auth_creates_session false 100 [] " ab12cd " "" [⟨9, "AB12CD"⟩] "s1" ⟨9, "AB12CD"⟩
    (by decide) (by decide) (by decide)

/-- Counterexample to claim C9: the destructive routes the claim names,
reset-votes and user deletion, are gated on require_admin alone, and a
request carrying only analyst credentials — an authenticated session
with role analyst together with the analyst shared secret in the header
— is rejected with 403 by both; the same credentials do satisfy
require_analyst. -/
theorem analyst_destructive_access_counterexample :
    require_analyst ⟨some true, some "analyst"⟩ "HANS13" = true ∧
    require_admin ⟨some true, some "analyst"⟩ "HANS13" = false ∧
    reset_votes ⟨some true, some "analyst"⟩ "HANS13" [⟨1, 1, 1⟩] =
      (adminAccessRequiredResponse, [⟨1, 1, 1⟩]) ∧
    (admin_delete_user ⟨some true, some "analyst"⟩ "HANS13" 1
      [⟨1, "AAAA11"⟩] [⟨1, 1, 1⟩] []).1 = adminAccessRequiredResponse := by
  exact ⟨by decide, by decide, by decide, by decide⟩

/-- Claim C9 as amended: no credential that fails the admin session-role
check and does not carry the admin shared secret reaches any of the
destructive admin routes — reset-votes and user deletion answer 403 and
change nothing — while the combined admin-or-analyst check appears only
on read routes such as the admin user listing, which an analyst session
does pass. -/
theorem analyst_no_destructive_access
    (s : AdminSession) (hdr : String) (votes : VoteStore)
    (users : List UserRec) (sessions : SessionStore) (uid : Nat)
    (hrole : ¬(s.admin_authenticated = some true ∧ s.admin_role.getD "admin" = "admin"))
    (hhdr : upper (strip hdr) ≠ ADMIN_CODE) :
    require_admin s hdr = false ∧
    reset_votes s hdr votes = (adminAccessRequiredResponse, votes) ∧
    admin_delete_user s hdr uid users votes sessions =
      (adminAccessRequiredResponse, users, votes, sessions) ∧
    admin_get_users_authorized ⟨some true, some "analyst"⟩ hdr = true := by
  have hadm : require_admin s hdr = false := by
    unfold require_admin
    have hcond : ¬((s.admin_authenticated == some true && s.admin_role.getD "admin" == "admin") = true) := by
      intro hcond
      rw [Bool.and_eq_true, beq_iff_eq, beq_iff_eq] at hcond
      exact hrole hcond
    rw [if_neg hcond]
    simpa using hhdr
  refine ⟨hadm, ?_, ?_, ?_⟩
  · unfold reset_votes
    rw [if_pos hadm]
  · unfold admin_delete_user
    rw [if_pos hadm]
  · unfold admin_get_users_authorized
    have hana : require_analyst ⟨some true, some "analyst"⟩ hdr = true := by
      unfold require_analyst
      rw [if_pos (by decide)]
    rw [hana, Bool.or_true]

/-- Witness for analyst_no_destructive_access: pure analyst credentials
(analyst session role, analyst header code) are turned away from
reset-votes and user deletion but accepted by the user-listing read
route. -/
theorem analyst_no_destructive_access_witness :
    require_admin ⟨some true, some "analyst"⟩ "HANS13" = false ∧
    reset_votes ⟨some true, some "analyst"⟩ "HANS13" [⟨2, 3, 1⟩] =
      (adminAccessRequiredResponse, [⟨2, 3, 1⟩]) ∧
    admin_delete_user ⟨some true, some "analyst"⟩ "HANS13" 2 [] [⟨2, 3, 1⟩] [] =
      (adminAccessRequiredResponse, [], [⟨2, 3, 1⟩], []) ∧
    admin_get_users_authorized ⟨some true, some "analyst"⟩ "HANS13" = true := by
  exact analyst_no_destructive_access ⟨some true, some "analyst"⟩ "HANS13" [⟨2, 3, 1⟩]
    [] [] 2 (by decide) (by decide)

theorem letterChar_upper (i : Fin 26) : isUpperLetter (letterChar i) = true := by
  revert i
  decide

theorem digitChar_digit (i : Fin 10) : isDigitChar (digitChar i) = true := by
  revert i
  decide

theorem accessCodeCandidate_shape (ls : Nat → Fin 26) (ds : Nat → Fin 10) (k : Nat) :
    matchesCodeShape (accessCodeCandidate ls ds k) = true := by
  have h6 : (accessCodeCandidate ls ds k).data =
      [letterChar (ls (4 * k)), letterChar (ls (4 * k + 1)), letterChar (ls (4 * k + 2)),
       letterChar (ls (4 * k + 3)), digitChar (ds (2 * k)), digitChar (ds (2 * k + 1))] := rfl
  unfold matchesCodeShape
  rw [h6]
  simp [letterChar_upper, digitChar_digit]

theorem generateAccessCodeAux_spec (ls : Nat → Fin 26) (ds : Nat → Fin 10) :
    ∀ fuel users k c k1, generateAccessCodeAux ls ds users k fuel = some (c, k1) →
      matchesCodeShape c = true ∧ storeHasCode users c = false := by
  intro fuel
  induction fuel with
  | zero => intro users k c k1 h; simp [generateAccessCodeAux] at h
  | succ fuel ih =>
    intro users k c k1 h
    rw [generateAccessCodeAux] at h
    split at h
    · exact ih users (k + 1) c k1 h
    · next hst =>
      cases h
      exact ⟨accessCodeCandidate_shape ls ds k, by simpa using hst⟩

theorem storeHasCode_append_false {users more : List UserRec} {c : String}
    (h : storeHasCode (users ++ more) c = false) : storeHasCode users c = false := by
  unfold storeHasCode at h ⊢
  rw [List.any_append] at h
  exact (Bool.or_eq_false_iff.mp h).1

theorem storeHasCode_append_self (users : List UserRec) (uid : Nat) (c : String) :
    storeHasCode (users ++ [⟨uid, c⟩]) c = true := by
  unfold storeHasCode
  rw [List.any_append]
  simp

theorem generateCodesSeq_spec (ls : Nat → Fin 26) (ds : Nat → Fin 10) :
    ∀ n users k fuel l, generateCodesSeq ls ds users k fuel n = some l →
      l.Nodup ∧ ∀ c ∈ l, matchesCodeShape c = true ∧ storeHasCode users c = false := by
  intro n
  induction n with
  | zero =>
    intro users k fuel l h
    rw [generateCodesSeq] at h
    cases h
    exact ⟨List.nodup_nil, by simp⟩
  | succ n ih =>
    intro users k fuel l h
    rw [generateCodesSeq] at h
    cases haux : generateAccessCodeAux ls ds users k fuel with
    | none => rw [haux] at h; simp at h
    | some ck =>
      obtain ⟨c, k1⟩ := ck
      rw [haux] at h
      have h2 : (match generateCodesSeq ls ds (users ++ [⟨0, c⟩]) k1 fuel n with
          | none => none
          | some rest => some (c :: rest)) = some l := h
      cases hrec : generateCodesSeq ls ds (users ++ [⟨0, c⟩]) k1 fuel n with
      | none => rw [hrec] at h2; simp at h2
      | some rest =>
        rw [hrec] at h2
        cases h2
        have hc := generateAccessCodeAux_spec ls ds fuel users k c k1 haux
        have hrest := ih (users ++ [⟨0, c⟩]) k1 fuel rest hrec
        constructor
        · rw [List.nodup_cons]
          refine ⟨?_, hrest.1⟩
          intro hmem
          have hfalse := (hrest.2 c hmem).2
          rw [storeHasCode_append_self] at hfalse
          exact Bool.true_eq_false.mp hfalse
        · intro x hx
          rcases List.mem_cons.mp hx with hx | hx
          · subst hx
            exact hc
          · have hfx := hrest.2 x hx
            exact ⟨hfx.1, storeHasCode_append_false hfx.2⟩

/-- Claim C7: every code produced by the generation loop has the shape of
four uppercase letters followed by two digits and differs from every
access code present in the user store at generation time; consequently
codes generated sequentially, each persisted as a user before the next
draw, are pairwise distinct and disjoint from the initial store. -/
theorem access_code_generation_fresh_and_distinct
    (ls : Nat → Fin 26) (ds : Nat → Fin 10) :
    (∀ users k fuel c, generate_access_code_helper ls ds users k fuel = some c →
      matchesCodeShape c = true ∧ storeHasCode users c = false) ∧
    (∀ n users k fuel l, generateCodesSeq ls ds users k fuel n = some l →
      l.Nodup ∧ ∀ c ∈ l, matchesCodeShape c = true ∧ storeHasCode users c = false) := by
  constructor
  · intro users k fuel c h
    unfold generate_access_code_helper at h
    cases haux : generateAccessCodeAux ls ds users k fuel with
    | none => rw [haux] at h; simp at h
    | some ck =>
      obtain ⟨c0, k1⟩ := ck
      rw [haux] at h
      simp at h
      subst h
      exact generateAccessCodeAux_spec ls ds fuel users k c0 k1 haux
  · exact generateCodesSeq_spec ls ds

/-- Witness for access_code_generation_fresh_and_distinct: with the
cyclic sample streams, the store already holding ABCD01 forces a retry
and the three sequentially generated codes EFGH23, IJKL45, MNOP67 are
pairwise distinct, well shaped and absent from the store. -/
theorem access_code_generation_fresh_and_distinct_witness :
    generate_access_code_helper (fun n => ⟨n % 26, Nat.mod_lt _ (by decide)⟩)
      (fun n => ⟨n % 10, Nat.mod_lt _ (by decide)⟩) [⟨0, "ABCD01"⟩] 0 5 = some "EFGH23" ∧
    matchesCodeShape "EFGH23" = true ∧
    storeHasCode [⟨0, "ABCD01"⟩] "EFGH23" = false ∧
    generateCodesSeq (fun n => ⟨n % 26, Nat.mod_lt _ (by decide)⟩)
      (fun n => ⟨n % 10, Nat.mod_lt _ (by decide)⟩) [⟨0, "ABCD01"⟩] 0 5 3 =
      some ["EFGH23", "IJKL45", "MNOP67"] ∧
    (["EFGH23", "IJKL45", "MNOP67"] : List String).Nodup := by
  have h := access_code_generation_fresh_and_distinct
    (fun n => ⟨n % 26, Nat.mod_lt _ (by decide)⟩) (fun n => ⟨n % 10, Nat.mod_lt _ (by decide)⟩)
  have h1 := h.1 [⟨0, "ABCD01"⟩] 0 5 "EFGH23" (by decide)
  have h2 := h.2 3 [⟨0, "ABCD01"⟩] 0 5 ["EFGH23", "IJKL45", "MNOP67"] (by decide)
  exact ⟨by decide, h1.1, h1.2, by decide, h2.1⟩

end VotingApp
